import Mathlib

/-!
# Verification of the ifwifi core logic (src/main.rs)

A shallow embedding of the pure core of `ifwifi`:

* `dBm_signal_measure` — the signal-strength classifier (main.rs lines 121-138);
* `is_connected` — the connection-status resolver (main.rs lines 101-119),
  working on the raw `nmcli -t -f active,ssid dev wifi` output;
* `build_row` — the pure data content of `scan_table_format`
  (main.rs lines 51-99): per-network report assembly;
* `is_root` / the `main` privilege gate (main.rs lines 140-155 and 186-189).

Rust `String` values are embedded as `List Char`; Rust `f32` values are
embedded as `F32` below: either NaN, an infinity, or an exact rational value
(the claims under study only compare signals against the decimal thresholds
-30, -50, -60, -67, -70, -80, all exactly representable, so exact rational
arithmetic is a faithful model of the comparisons the code performs).
The `f32` string parse (`str::parse::<f32>`, Rust standard library, not part
of this repository) is kept abstract: `build_row` takes the parse function as
a parameter of type `RStr → Option F32`, where `none` models `Err(_)`.
-/

/-- Embedding of Rust `String` / `&str`: a list of characters. -/
abbrev RStr := List Char

/-- Embedding of Rust `f32` for the purposes of this program: NaN, the two
infinities, or an exact finite value. -/
inductive F32 where
  | nan : F32
  | inf : F32
  | neginf : F32
  | val : ℚ → F32
deriving DecidableEq

/-- IEEE-754 `>=` comparison of an `f32` against a finite rational constant:
any comparison with NaN is false. -/
def F32.fge : F32 → ℚ → Bool
  | .nan, _ => false
  | .inf, _ => true
  | .neginf, _ => false
  | .val v, q => decide (v ≥ q)

/-- IEEE-754 `<` comparison of an `f32` against a finite rational constant:
any comparison with NaN is false. -/
def F32.flt : F32 → ℚ → Bool
  | .nan, _ => false
  | .inf, _ => false
  | .neginf, _ => true
  | .val v, q => decide (v < q)

/-- The seven quality tiers, exactly the `SignalMeasure` enum of main.rs
(lines 40-49). -/
inductive SignalMeasure where
  | Maximum
  | Excellent
  | Good
  | Reliable
  | Weak
  | Unreliable
  | Bad
deriving DecidableEq, Repr

/-- The signal classifier, `dBm_signal_measure` of main.rs (lines 121-138),
mirroring its if/else-if chain literally, including the trailing
`return SignalMeasure::Bad` fallback. -/
def dBm_signal_measure (signal : F32) : SignalMeasure :=
  if signal.fge (-30) then .Maximum
  else if signal.flt (-30) && signal.fge (-50) then .Excellent
  else if signal.flt (-50) && signal.fge (-60) then .Good
  else if signal.flt (-60) && signal.fge (-67) then .Reliable
  else if signal.flt (-67) && signal.fge (-70) then .Weak
  else if signal.flt (-70) && signal.fge (-80) then .Unreliable
  else if signal.flt (-80) then .Bad
  else .Bad

/-- Tier rank: `Bad < Unreliable < Weak < Reliable < Good < Excellent <
Maximum`, the total order by underlying threshold. -/
def SignalMeasure.rank : SignalMeasure → Nat
  | .Bad => 0
  | .Unreliable => 1
  | .Weak => 2
  | .Reliable => 3
  | .Good => 4
  | .Excellent => 5
  | .Maximum => 6

/-- Embedding of Rust's `str::trim`: drop whitespace from both ends. -/
def rtrim (s : RStr) : RStr :=
  ((s.dropWhile Char.isWhitespace).reverse.dropWhile Char.isWhitespace).reverse

/-- The connection-status resolver, `is_connected` of main.rs (lines 101-119).
`stdout` is the raw standard output of
`nmcli -t -f active,ssid dev wifi` (the process invocation itself is the
external collaborator; its output is this function's input).  The source
builds `ssid_comp = "yes:" + ssid`, takes the first `'\n'`-separated field of
the output (`split('\n').take(1)...[0]`, total because `split` never yields an
empty list — here `headD []`), and compares `ssid_comp` with the trimmed
first line after a `starts_with("yes")` guard. -/
def is_connected (stdout : RStr) (ssid : RStr) : Bool :=
  let ssid_comp : RStr := "yes:".toList ++ ssid
  let output : RStr := (stdout.splitOn '\n').headD []
  if ("yes".toList).isPrefixOf (rtrim output) then
    if ssid_comp = rtrim output then true else false
  else false

/-- One raw snapshot line `<active>:<ssid>` as produced by
`nmcli -t -f active,ssid dev wifi` for the pair `(active, ssid)`:
the literal token `yes` or `no`, a colon, then the SSID. -/
def renderLine (p : Bool × RStr) : RStr :=
  (if p.1 then "yes".toList else "no".toList) ++ [':'] ++ p.2

/-- The raw nmcli stdout for a whole snapshot: its lines joined by `'\n'`. -/
def renderSnapshot (snap : List (Bool × RStr)) : RStr :=
  ['\n'].intercalate (snap.map renderLine)

/-- `is_connected` applied to an `ActiveConnectionSnapshot` given as the
ordered list of `(active, ssid)` pairs, encoded as the raw text the external
network manager would print for it. -/
def is_connected_pairs (snap : List (Bool × RStr)) (target : RStr) : Bool :=
  is_connected (renderSnapshot snap) target

/-- A snapshot SSID is representable on one raw line and is untouched by the
surrounding-whitespace normalization of that line: it contains no `'\n'` and
no trailing whitespace. -/
def cleanStr (s : RStr) : Prop :=
  '\n' ∉ s ∧ s.reverse.dropWhile Char.isWhitespace = s.reverse

instance (s : RStr) : Decidable (cleanStr s) := by
  unfold cleanStr; infer_instance

/-- `wifiscanner::Wifi` (the external crate's record type consumed by
`scan_table_format`): all fields are strings. -/
structure Wifi where
  mac : RStr
  ssid : RStr
  channel : RStr
  signal_level : RStr
  security : RStr
deriving DecidableEq

/-- The ReportRow: the data content of one output line of
`scan_table_format` (main.rs lines 51-99): the current-connection marker, the
echoed network fields, and the computed tier. -/
structure ReportRow where
  is_current : Bool
  mac : RStr
  ssid : RStr
  channel : RStr
  tier : SignalMeasure
  signal_level : RStr
  security : RStr
deriving DecidableEq

/-- The pure row-building content of `scan_table_format` (main.rs lines
51-99).  `parse` embeds Rust's `str::parse::<f32>` (standard library, outside
this repository, so kept abstract: `none` models `Err(_)`); the source's
`.unwrap_or_default()` is `.getD (F32.val 0)` since `f32::default()` is `0.0`.
`stdout` is the raw nmcli output consumed by `is_connected` (line 55). -/
def build_row (parse : RStr → Option F32) (network : Wifi) (stdout : RStr) :
    ReportRow :=
  let signal_level := dBm_signal_measure ((parse network.signal_level).getD (F32.val 0))
  { is_current := is_connected stdout network.ssid
    mac := network.mac
    ssid := network.ssid
    channel := network.channel
    tier := signal_level
    signal_level := network.signal_level
    security := network.security }

/-- Rust `std::env::VarError`: the two ways `env::var("USER")` can fail. -/
inductive VarError where
  | notPresent
  | notUnicode
deriving DecidableEq

/-- The privilege gate `is_root` of main.rs (lines 140-155), as a function of
the result of the `env::var("USER")` lookup: an error prints a message and
yields `false`; a present value yields `false` unless it is exactly `"root"`. -/
def is_root (user : Except VarError RStr) : Bool :=
  match user with
  | .error _ => false
  | .ok name => if name ≠ "root".toList then false else true

/-- The subcommand selected on the command line (clap dispatch,
main.rs lines 229-233). -/
inductive Subcmd where
  | scan
  | connect (ssid password iface : RStr)
  | other
deriving DecidableEq

/-- What the process does: terminate with an exit code, or reach the
subcommand dispatch and perform `cmd`. -/
inductive MainOutcome where
  | exited (code : Nat)
  | performed (cmd : Subcmd)
deriving DecidableEq

/-- The privilege gate of `main` (main.rs lines 186-189): if `is_root()`
is false the process exits with status 2 before any scan or connect;
otherwise control reaches the subcommand dispatch. -/
def main_model (user : Except VarError RStr) (cmd : Subcmd) : MainOutcome :=
  if is_root user = false then .exited 2 else .performed cmd

example : dBm_signal_measure (.val 0) = .Maximum := by decide
example : dBm_signal_measure (.val (-30.01)) = .Excellent := by
  simp [dBm_signal_measure, F32.fge, F32.flt]; norm_num
example : dBm_signal_measure (.val (-80)) = .Unreliable := by decide
example : dBm_signal_measure (.val (-80.01)) = .Bad := by
  simp [dBm_signal_measure, F32.fge, F32.flt]; norm_num
example : dBm_signal_measure .nan = .Bad := by decide

lemma classify_max (v : ℚ) (h : -30 ≤ v) :
    dBm_signal_measure (.val v) = .Maximum := by
  simp [dBm_signal_measure, F32.fge, ge_iff_le, h]

lemma classify_exc (v : ℚ) (h1 : -50 ≤ v) (h2 : v < -30) :
    dBm_signal_measure (.val v) = .Excellent := by
  simp [dBm_signal_measure, F32.fge, F32.flt, ge_iff_le, h1, h2, not_le.mpr h2]

lemma classify_good (v : ℚ) (h1 : -60 ≤ v) (h2 : v < -50) :
    dBm_signal_measure (.val v) = .Good := by
  have hA : v < -30 := by linarith
  simp [dBm_signal_measure, F32.fge, F32.flt, ge_iff_le, h1, h2, hA,
    not_le.mpr hA, not_le.mpr h2]

lemma classify_rel (v : ℚ) (h1 : -67 ≤ v) (h2 : v < -60) :
    dBm_signal_measure (.val v) = .Reliable := by
  have hA : v < -30 := by linarith
  have hB : v < -50 := by linarith
  simp [dBm_signal_measure, F32.fge, F32.flt, ge_iff_le, h1, h2, hA, hB,
    not_le.mpr hA, not_le.mpr hB, not_le.mpr h2]

lemma classify_weak (v : ℚ) (h1 : -70 ≤ v) (h2 : v < -67) :
    dBm_signal_measure (.val v) = .Weak := by
  have hA : v < -30 := by linarith
  have hB : v < -50 := by linarith
  have hC : v < -60 := by linarith
  simp [dBm_signal_measure, F32.fge, F32.flt, ge_iff_le, h1, h2, hA, hB, hC,
    not_le.mpr hA, not_le.mpr hB, not_le.mpr hC, not_le.mpr h2]

lemma classify_unrel (v : ℚ) (h1 : -80 ≤ v) (h2 : v < -70) :
    dBm_signal_measure (.val v) = .Unreliable := by
  have hA : v < -30 := by linarith
  have hB : v < -50 := by linarith
  have hC : v < -60 := by linarith
  have hD : v < -67 := by linarith
  simp [dBm_signal_measure, F32.fge, F32.flt, ge_iff_le, h1, h2, hA, hB, hC, hD,
    not_le.mpr hA, not_le.mpr hB, not_le.mpr hC, not_le.mpr hD, not_le.mpr h2]

lemma classify_bad (v : ℚ) (h2 : v < -80) :
    dBm_signal_measure (.val v) = .Bad := by
  have hA : v < -30 := by linarith
  have hB : v < -50 := by linarith
  have hC : v < -60 := by linarith
  have hD : v < -67 := by linarith
  have hE : v < -70 := by linarith
  simp [dBm_signal_measure, F32.fge, F32.flt, ge_iff_le, h2, hA, hB, hC, hD, hE,
    not_le.mpr hA, not_le.mpr hB, not_le.mpr hC, not_le.mpr hD, not_le.mpr hE,
    not_le.mpr h2]

lemma classify_table (v : ℚ) :
    (dBm_signal_measure (.val v) = .Maximum ↔ -30 ≤ v) ∧
    (dBm_signal_measure (.val v) = .Excellent ↔ -50 ≤ v ∧ v < -30) ∧
    (dBm_signal_measure (.val v) = .Good ↔ -60 ≤ v ∧ v < -50) ∧
    (dBm_signal_measure (.val v) = .Reliable ↔ -67 ≤ v ∧ v < -60) ∧
    (dBm_signal_measure (.val v) = .Weak ↔ -70 ≤ v ∧ v < -67) ∧
    (dBm_signal_measure (.val v) = .Unreliable ↔ -80 ≤ v ∧ v < -70) ∧
    (dBm_signal_measure (.val v) = .Bad ↔ v < -80) := by
  rcases le_or_lt (-30) v with h | h1
  · have hc := classify_max v h
    refine ⟨?_, ?_, ?_, ?_, ?_, ?_, ?_⟩ <;> rw [hc] <;> simp <;>
      first
        | linarith
        | (rintro ⟨hx, hy⟩ ; linarith)
        | (intro hx ; linarith)
  rcases le_or_lt (-50) v with h | h2
  · have hc := classify_exc v h h1
    refine ⟨?_, ?_, ?_, ?_, ?_, ?_, ?_⟩ <;> rw [hc] <;> simp <;>
      first
        | (constructor <;> linarith)
        | linarith
        | (rintro ⟨hx, hy⟩ ; linarith)
        | (intro hx ; linarith)
  rcases le_or_lt (-60) v with h | h3
  · have hc := classify_good v h h2
    refine ⟨?_, ?_, ?_, ?_, ?_, ?_, ?_⟩ <;> rw [hc] <;> simp <;>
      first
        | (constructor <;> linarith)
        | linarith
        | (rintro ⟨hx, hy⟩ ; linarith)
        | (intro hx ; linarith)
  rcases le_or_lt (-67) v with h | h4
  · have hc := classify_rel v h h3
    refine ⟨?_, ?_, ?_, ?_, ?_, ?_, ?_⟩ <;> rw [hc] <;> simp <;>
      first
        | (constructor <;> linarith)
        | linarith
        | (rintro ⟨hx, hy⟩ ; linarith)
        | (intro hx ; linarith)
  rcases le_or_lt (-70) v with h | h5
  · have hc := classify_weak v h h4
    refine ⟨?_, ?_, ?_, ?_, ?_, ?_, ?_⟩ <;> rw [hc] <;> simp <;>
      first
        | (constructor <;> linarith)
        | linarith
        | (rintro ⟨hx, hy⟩ ; linarith)
        | (intro hx ; linarith)
  rcases le_or_lt (-80) v with h | h6
  · have hc := classify_unrel v h h5
    refine ⟨?_, ?_, ?_, ?_, ?_, ?_, ?_⟩ <;> rw [hc] <;> simp <;>
      first
        | (constructor <;> linarith)
        | linarith
        | (rintro ⟨hx, hy⟩ ; linarith)
        | (intro hx ; linarith)
  · have hc := classify_bad v h6
    refine ⟨?_, ?_, ?_, ?_, ?_, ?_, ?_⟩ <;> rw [hc] <;> simp <;>
      first
        | linarith
        | (rintro ⟨hx, hy⟩ ; linarith)
        | (intro hx ; linarith)

lemma rank_classify (v : ℚ) : (dBm_signal_measure (.val v)).rank =
    if -30 ≤ v then 6 else if -50 ≤ v then 5 else if -60 ≤ v then 4
    else if -67 ≤ v then 3 else if -70 ≤ v then 2 else if -80 ≤ v then 1
    else 0 := by
  rcases le_or_lt (-30) v with h | h1
  · rw [classify_max v h, if_pos h]; rfl
  rcases le_or_lt (-50) v with h | h2
  · rw [classify_exc v h h1, if_neg (not_le.mpr h1), if_pos h]; rfl
  rcases le_or_lt (-60) v with h | h3
  · rw [classify_good v h h2, if_neg (not_le.mpr h1), if_neg (not_le.mpr h2), if_pos h]; rfl
  rcases le_or_lt (-67) v with h | h4
  · rw [classify_rel v h h3, if_neg (not_le.mpr h1), if_neg (not_le.mpr h2),
      if_neg (not_le.mpr h3), if_pos h]; rfl
  rcases le_or_lt (-70) v with h | h5
  · rw [classify_weak v h h4, if_neg (not_le.mpr h1), if_neg (not_le.mpr h2),
      if_neg (not_le.mpr h3), if_neg (not_le.mpr h4), if_pos h]; rfl
  rcases le_or_lt (-80) v with h | h6
  · rw [classify_unrel v h h5, if_neg (not_le.mpr h1), if_neg (not_le.mpr h2),
      if_neg (not_le.mpr h3), if_neg (not_le.mpr h4), if_neg (not_le.mpr h5), if_pos h]; rfl
  · rw [classify_bad v h6, if_neg (not_le.mpr h1), if_neg (not_le.mpr h2),
      if_neg (not_le.mpr h3), if_neg (not_le.mpr h4), if_neg (not_le.mpr h5),
      if_neg (not_le.mpr h6)]; rfl

lemma classify_mono (v1 v2 : ℚ) (h : v1 ≤ v2) :
    (dBm_signal_measure (.val v1)).rank ≤ (dBm_signal_measure (.val v2)).rank := by
  rw [rank_classify, rank_classify]
  split_ifs <;> first | decide | (exfalso ; linarith)

lemma dropWhile_eq_self_append {p : Char → Bool} {l1 l2 : List Char}
    (h1 : l1.dropWhile p = l1) (h2 : l2.dropWhile p = l2) :
    (l1 ++ l2).dropWhile p = l1 ++ l2 := by
  rw [List.dropWhile_append, h1]
  cases l1 with
  | nil => simpa using h2
  | cons a t => simp

lemma intercalate_singleton (x : RStr) : ['\n'].intercalate [x] = x := by
  simp [List.intercalate]

lemma intercalate_cons_cons (x y : RStr) (ls : List RStr) :
    ['\n'].intercalate (x :: y :: ls) = x ++ '\n' :: ['\n'].intercalate (y :: ls) := by
  simp [List.intercalate, List.intersperse]

lemma splitOn_headD_of_not_mem (x : RStr) (h : '\n' ∉ x) :
    (x.splitOn '\n').headD [] = x := by
  rw [List.splitOn, List.splitOnP_eq_single]
  · rfl
  · intro y hy
    simp only [beq_iff_eq]
    exact fun he => h (he ▸ hy)

lemma splitOn_headD_append (x rest : RStr) (h : '\n' ∉ x) :
    ((x ++ '\n' :: rest).splitOn '\n').headD [] = x := by
  rw [List.splitOn, List.splitOnP_first]
  · rfl
  · intro y hy
    simp only [beq_iff_eq]
    exact fun he => h (he ▸ hy)
  · simp

lemma renderSnapshot_headD (p : Bool × RStr) (rest : List (Bool × RStr))
    (h : '\n' ∉ renderLine p) :
    ((renderSnapshot (p :: rest)).splitOn '\n').headD [] = renderLine p := by
  cases rest with
  | nil =>
    rw [renderSnapshot, List.map, List.map, intercalate_singleton]
    exact splitOn_headD_of_not_mem _ h
  | cons q qs =>
    rw [renderSnapshot, List.map, List.map, intercalate_cons_cons]
    exact splitOn_headD_append _ _ h

lemma renderLine_true (s : RStr) : renderLine (true, s) = 'y' :: 'e' :: 's' :: ':' ::s := by
  simp [renderLine]

lemma renderLine_false (s : RStr) : renderLine (false, s) = 'n' :: 'o' :: ':' ::s := by
  simp [renderLine]

lemma rtrim_yes (s : RStr) (h : s.reverse.dropWhile Char.isWhitespace = s.reverse) :
    rtrim ('y' :: 'e' :: 's' :: ':' ::s) = 'y' :: 'e' :: 's' :: ':' ::s := by
  unfold rtrim
  have h1 : ('y' :: 'e' :: 's' :: ':' ::s).dropWhile Char.isWhitespace
      = 'y' :: 'e' :: 's' :: ':' ::s := by
    rw [List.dropWhile_cons]
    simp
  have h2 : ('y' :: 'e' :: 's' :: ':' ::s).reverse = s.reverse ++ [':','s','e','y'] := by
    simp
  rw [h1, h2, dropWhile_eq_self_append h (by decide), ← h2, List.reverse_reverse]

lemma rtrim_no (s : RStr) (h : s.reverse.dropWhile Char.isWhitespace = s.reverse) :
    rtrim ('n' :: 'o' :: ':' ::s) = 'n' :: 'o' :: ':' ::s := by
  unfold rtrim
  have h1 : ('n' :: 'o' :: ':' ::s).dropWhile Char.isWhitespace = 'n' :: 'o' :: ':' ::s := by
    rw [List.dropWhile_cons]
    simp
  have h2 : ('n' :: 'o' :: ':' ::s).reverse = s.reverse ++ [':','o','n'] := by simp
  rw [h1, h2, dropWhile_eq_self_append h (by decide), ← h2, List.reverse_reverse]

lemma line_yes_starts (s : RStr) :
    ("yes".toList).isPrefixOf ('y' :: 'e' :: 's' :: ':' ::s) = true := by
  simp [List.isPrefixOf]

lemma line_no_starts (s : RStr) :
    ("yes".toList).isPrefixOf ('n' :: 'o' :: ':' ::s) = false := by
  simp [List.isPrefixOf]

lemma is_connected_pairs_nil (target : RStr) :
    is_connected_pairs [] target = false := rfl

lemma newline_not_mem_renderLine (a : Bool) (s : RStr) (h : '\n' ∉ s) :
    '\n' ∉ renderLine (a, s) := by
  cases a <;> simp [renderLine] <;> exact fun hc => absurd hc h

lemma is_connected_pairs_cons (a : Bool) (s : RStr) (rest : List (Bool × RStr))
    (target : RStr) (hnl : '\n' ∉ s)
    (htr : s.reverse.dropWhile Char.isWhitespace = s.reverse) :
    is_connected_pairs ((a, s) :: rest) target = (a && decide (target = s)) := by
  unfold is_connected_pairs is_connected
  rw [renderSnapshot_headD _ _ (newline_not_mem_renderLine a s hnl)]
  dsimp only
  cases a with
  | true =>
    rw [renderLine_true, rtrim_yes s htr, line_yes_starts]
    simp only [if_true, Bool.true_and]
    have : ("yes:".toList ++ target = 'y' :: 'e' :: 's' :: ':' ::s) ↔ target = s := by
      constructor
      · intro h
        simpa using h
      · intro h
        simp [h]
    by_cases hts : target = s
    · simp [this, hts]
    · simp [this, hts]
  | false =>
    rw [renderLine_false, rtrim_no s htr, line_no_starts]
    simp

/-- Claim C1: for every finite signal value `v`, `dBm_signal_measure` returns
the tier given by the threshold table with inclusive lower bounds
(Maximum iff `v ≥ -30`, Excellent iff `-50 ≤ v < -30`, Good iff
`-60 ≤ v < -50`, Reliable iff `-67 ≤ v < -60`, Weak iff `-70 ≤ v < -67`,
Unreliable iff `-80 ≤ v < -70`, Bad iff `v < -80`); in particular
`classify(-30.0) = Maximum`, `classify(-30.01) = Excellent`,
`classify(-80.0) = Unreliable`, `classify(-80.01) = Bad`, and
`classify(0.0) = Maximum`. -/
theorem classify_threshold_table :
    (∀ v : ℚ,
      (dBm_signal_measure (.val v) = .Maximum ↔ -30 ≤ v) ∧
      (dBm_signal_measure (.val v) = .Excellent ↔ -50 ≤ v ∧ v < -30) ∧
      (dBm_signal_measure (.val v) = .Good ↔ -60 ≤ v ∧ v < -50) ∧
      (dBm_signal_measure (.val v) = .Reliable ↔ -67 ≤ v ∧ v < -60) ∧
      (dBm_signal_measure (.val v) = .Weak ↔ -70 ≤ v ∧ v < -67) ∧
      (dBm_signal_measure (.val v) = .Unreliable ↔ -80 ≤ v ∧ v < -70) ∧
      (dBm_signal_measure (.val v) = .Bad ↔ v < -80)) ∧
    dBm_signal_measure (.val (-30)) = .Maximum ∧
    dBm_signal_measure (.val (-30.01)) = .Excellent ∧
    dBm_signal_measure (.val (-80)) = .Unreliable ∧
    dBm_signal_measure (.val (-80.01)) = .Bad ∧
    dBm_signal_measure (.val 0) = .Maximum :=
  ⟨classify_table,
   classify_max _ (by norm_num),
   classify_exc _ (by norm_num) (by norm_num),
   classify_unrel _ (by norm_num) (by norm_num),
   classify_bad _ (by norm_num),
   classify_max _ (by norm_num)⟩

/-- Claim C1, witness: the threshold table evaluated at the concrete input
`-40`, which the table places in Excellent. -/
theorem classify_threshold_table_witness :
    dBm_signal_measure (.val (-40)) = .Excellent :=
  (classify_threshold_table.1 (-40)).2.1.mpr (by norm_num)

/-- Claim C3: `dBm_signal_measure` is total (it returns a tier for every
`F32` input, NaN and infinities included) and monotonic on finite values: if
`v1 ≤ v2` then the rank of `classify(v1)` is at most the rank of
`classify(v2)`, where ranks order the tiers
`Bad < Unreliable < Weak < Reliable < Good < Excellent < Maximum`. -/
theorem classify_total_monotone :
    (∀ x : F32, ∃ t : SignalMeasure, dBm_signal_measure x = t) ∧
    (∀ v1 v2 : ℚ, v1 ≤ v2 →
      (dBm_signal_measure (.val v1)).rank ≤ (dBm_signal_measure (.val v2)).rank) :=
  ⟨fun x => ⟨dBm_signal_measure x, rfl⟩, classify_mono⟩

/-- Claim C3, witness: monotonicity applied at the concrete pair
`-75 ≤ -55`. -/
theorem classify_total_monotone_witness :
    (-75 : ℚ) ≤ -55 ∧
    (dBm_signal_measure (.val (-75))).rank ≤ (dBm_signal_measure (.val (-55))).rank :=
  ⟨by norm_num, classify_total_monotone.2 (-75) (-55) (by norm_num)⟩

/-- Claim C9 (implicit): `dBm_signal_measure` is total even for NaN, which
fails every comparison in the if/else-if chain (`fge` and `flt` against every
constant are both `false` on NaN), so the trailing fallback branch fires and
`classify(NaN) = Bad`. -/
theorem classify_nan_fallback :
    dBm_signal_measure F32.nan = SignalMeasure.Bad ∧
    ∀ q : ℚ, F32.fge .nan q = false ∧ F32.flt .nan q = false :=
  ⟨rfl, fun _ => ⟨rfl, rfl⟩⟩

/-- Claim C2: for every snapshot (ordered list of `(active, ssid)` pairs,
rendered to the raw `<yes|no>:<ssid>` lines the resolver reads) and every
target SSID, `is_connected` returns `true` iff the snapshot's first pair has
`active = true` and its SSID equals the target exactly (case-sensitive); it
returns `false` for an empty snapshot, a non-active first entry, or an SSID
mismatch, and being a total `Bool`-valued function it never raises.  The
hypothesis confines the first pair's SSID to ones representable on a raw
snapshot line and untouched by the line's surrounding-whitespace
normalization (no embedded newline, no trailing whitespace), matching the
claim's normalization caveat. -/
theorem is_connected_first_pair_iff (snap : List (Bool × RStr)) (target : RStr)
    (hclean : ∀ p ∈ snap.take 1, cleanStr p.2) :
    (is_connected_pairs snap target = true ↔
      ∃ rest, snap = (true, target) :: rest) := by
  cases snap with
  | nil =>
    rw [is_connected_pairs_nil]
    simp
  | cons p rest =>
    obtain ⟨a, s⟩ := p
    obtain ⟨hnl, htr⟩ := hclean (a, s) (by simp)
    rw [is_connected_pairs_cons a s rest target hnl htr]
    constructor
    · intro h
      rw [Bool.and_eq_true, decide_eq_true_eq] at h
      obtain ⟨ha, hts⟩ := h
      subst ha
      subst hts
      exact ⟨rest, rfl⟩
    · rintro ⟨r, hr⟩
      rw [List.cons.injEq, Prod.mk.injEq] at hr
      obtain ⟨⟨ha, hs⟩, hrest⟩ := hr
      subst ha
      subst hs
      simp

/-- Claim C2, witness: the resolver applied to the concrete snapshot
`[("yes", "home")]` with target `"home"`, discharging the cleanliness
hypothesis by computation. -/
theorem is_connected_first_pair_iff_witness :
    is_connected_pairs [(true, "home".toList)] "home".toList = true :=
  (is_connected_first_pair_iff [(true, "home".toList)] "home".toList
    (by decide)).mpr ⟨[], rfl⟩

/-- Claim C5: `is_connected` consults only the first snapshot entry: whenever
the first pair is not an active exact match for the target, the result is
`false` for every tail `rest` — in particular even when some later entry is
active and equals the target. -/
theorem is_connected_only_first_entry (p : Bool × RStr)
    (rest : List (Bool × RStr)) (target : RStr) (hclean : cleanStr p.2)
    (hmiss : ¬(p.1 = true ∧ p.2 = target)) :
    is_connected_pairs (p :: rest) target = false := by
  obtain ⟨a, s⟩ := p
  obtain ⟨hnl, htr⟩ := hclean
  rw [is_connected_pairs_cons a s rest target hnl htr]
  cases a with
  | false => simp
  | true =>
    simp only [Bool.true_and, decide_eq_false_iff_not]
    exact fun h => hmiss ⟨rfl, h.symm⟩

/-- Claim C5, witness: the concrete snapshot whose first entry is inactive
but whose second entry is an active exact match still resolves to `false`. -/
theorem is_connected_only_first_entry_witness :
    is_connected_pairs [(false, "home".toList), (true, "home".toList)]
      "home".toList = false :=
  is_connected_only_first_entry (false, "home".toList) [(true, "home".toList)]
    "home".toList (by decide) (by decide)

/-- Claim C4: for every network whose `signal_level` string the `f32` parse
rejects (`parse = none`, covering empty and non-numeric strings),
`build_row` substitutes `0.0` — the row's tier is `classify(0.0)`, which by
the 0.0 quirk is Maximum — and the parse failure is never propagated:
`build_row` is a total function into `ReportRow`. -/
theorem build_row_unparsable_defaults (parse : RStr → Option F32)
    (network : Wifi) (stdout : RStr)
    (hfail : parse network.signal_level = none) :
    (build_row parse network stdout).tier = dBm_signal_measure (F32.val 0) ∧
    (build_row parse network stdout).tier = SignalMeasure.Maximum := by
  unfold build_row
  rw [hfail]
  refine ⟨rfl, ?_⟩
  show dBm_signal_measure ((none : Option F32).getD (F32.val 0)) = SignalMeasure.Maximum
  decide

/-- Claim C4, witness: a network whose `signal_level` is the unparsable
string `"xyz"` (under the everywhere-failing parse) gets tier Maximum. -/
theorem build_row_unparsable_defaults_witness :
    (build_row (fun _ => none) ⟨[], [], [], "xyz".toList, []⟩ []).tier
      = SignalMeasure.Maximum :=
  (build_row_unparsable_defaults (fun _ => none)
    ⟨[], [], [], "xyz".toList, []⟩ [] rfl).2

/-- Claim C6: for every list of networks and every snapshot, the
`is_current` flag of each row produced by `build_row` equals a direct call to
`is_connected` with the same snapshot and that row's `ssid`. -/
theorem build_row_is_current_agrees (parse : RStr → Option F32)
    (networks : List Wifi) (stdout : RStr) (row : ReportRow)
    (hrow : row ∈ networks.map (fun n => build_row parse n stdout)) :
    row.is_current = is_connected stdout row.ssid := by
  rcases List.mem_map.mp hrow with ⟨n, _, rfl⟩
  rfl

/-- Claim C6, witness: the agreement evaluated on a concrete one-network
list. -/
theorem build_row_is_current_agrees_witness :
    (build_row (fun _ => none) ⟨[], "home".toList, [], [], []⟩ []).is_current
      = is_connected []
        ((build_row (fun _ => none) ⟨[], "home".toList, [], [], []⟩ []).ssid) :=
  build_row_is_current_agrees (fun _ => none)
    [⟨[], "home".toList, [], [], []⟩] [] _ (by simp)

/-- Claim C8: `build_row` is deterministic and side-effect-free as a
transformation of its two inputs: two calls with field-wise identical
`Wifi` records and identical snapshots yield field-wise identical
`ReportRow` values. -/
theorem build_row_deterministic (parse : RStr → Option F32) (n1 n2 : Wifi)
    (s1 s2 : RStr)
    (hmac : n1.mac = n2.mac) (hssid : n1.ssid = n2.ssid)
    (hch : n1.channel = n2.channel) (hsig : n1.signal_level = n2.signal_level)
    (hsec : n1.security = n2.security) (hstd : s1 = s2) :
    (build_row parse n1 s1).is_current = (build_row parse n2 s2).is_current ∧
    (build_row parse n1 s1).mac = (build_row parse n2 s2).mac ∧
    (build_row parse n1 s1).ssid = (build_row parse n2 s2).ssid ∧
    (build_row parse n1 s1).channel = (build_row parse n2 s2).channel ∧
    (build_row parse n1 s1).tier = (build_row parse n2 s2).tier ∧
    (build_row parse n1 s1).signal_level = (build_row parse n2 s2).signal_level ∧
    (build_row parse n1 s1).security = (build_row parse n2 s2).security := by
  have hn : n1 = n2 := by
    cases n1
    cases n2
    simp_all
  subst hn
  subst hstd
  exact ⟨rfl, rfl, rfl, rfl, rfl, rfl, rfl⟩

/-- Claim C8, witness: determinism applied at a concrete network and
snapshot. -/
theorem build_row_deterministic_witness :
    (build_row (fun _ => none) ⟨[], [], [], [], []⟩ []).tier
      = (build_row (fun _ => none) ⟨[], [], [], [], []⟩ []).tier :=
  (build_row_deterministic (fun _ => none) ⟨[], [], [], [], []⟩
    ⟨[], [], [], [], []⟩ [] [] rfl rfl rfl rfl rfl rfl).2.2.2.2.1

/-- Claim C7: when the privilege precondition fails (`is_root` is false),
`main` terminates with the distinct non-zero exit status 2 and never reaches
the subcommand dispatch, so no scan or connect is performed. -/
theorem main_not_root_exits_2 (user : Except VarError RStr) (cmd : Subcmd)
    (h : is_root user = false) :
    main_model user cmd = MainOutcome.exited 2 ∧
    ∀ c : Subcmd, main_model user cmd ≠ MainOutcome.performed c := by
  unfold main_model
  rw [h]
  exact ⟨rfl, fun c hc => by simp at hc⟩

/-- Claim C7, witness: with `USER` absent the process exits with status 2. -/
theorem main_not_root_exits_2_witness :
    main_model (.error .notPresent) .scan = MainOutcome.exited 2 :=
  (main_not_root_exits_2 (.error .notPresent) .scan rfl).1

/-- Claim C10 (implicit): the privilege gate decides privilege solely from
the `USER` environment lookup it is given (its only input in this embedding):
it returns `true` iff the variable is present and equals exactly `"root"`,
and returns `false`, without raising, on either lookup error (absent or
non-unicode value). -/
theorem is_root_iff_user_root :
    (∀ user : Except VarError RStr,
      is_root user = true ↔ user = .ok "root".toList) ∧
    (∀ e : VarError, is_root (.error e) = false) := by
  constructor
  · intro user
    cases user with
    | error e => simp [is_root]
    | ok name =>
      by_cases h : name = "root".toList <;> simp [is_root, h]
  · intro e
    rfl

/-- Claim C10, witness: the gate evaluated at a present `USER=root`. -/
theorem is_root_iff_user_root_witness :
    is_root (.ok "root".toList) = true :=
  (is_root_iff_user_root.1 (.ok "root".toList)).mpr rfl
